import Mathlib

/-!
# Verification of the fitness-tracker module (`homework.py`)

Shallow embedding of the workout-statistics module: an `InfoMessage` record,
a base `Training` class, three concrete activity variants (`Running`,
`SportsWalking`, `Swimming`), and the `read_package` dispatcher.

Modelling conventions:
* Python floats are modelled as exact rationals (`ℚ`); the specification's
  formulas and sample values are stated in exact decimal arithmetic.
* Python division (`/`) raises `ZeroDivisionError` on a zero divisor, so
  divisions whose divisor is instance data are embedded as `Option`-valued
  (`qdiv`); division by the nonzero constant `M_IN_KM` stays total.
* Python floor division (`//`) on floats computes `floor(a / b)` and raises
  on a zero divisor: embedded as `qfloordiv`.
* The dispatcher's `KeyError` (unknown tag) and `TypeError` (positional
  arity mismatch when unpacking `*data`) are embedded as `Except` errors.
-/

/-- `Training.LEN_STEP`: metres covered by one step. -/
def LEN_STEP : ℚ := 0.65

/-- `Training.M_IN_KM`: metres per kilometre. -/
def M_IN_KM : ℚ := 1000

/-- `Running.coeff_calorie_RUN_1`. -/
def coeff_calorie_RUN_1 : ℚ := 18

/-- `Running.coeff_calorie_RUN_2`. -/
def coeff_calorie_RUN_2 : ℚ := 20

/-- `Running.TIME_IN_MIN`: minutes per hour. -/
def TIME_IN_MIN : ℚ := 60

/-- `SportsWalking.coeff_calorie_WLK_1`. -/
def coeff_calorie_WLK_1 : ℚ := 0.035

/-- `SportsWalking.coeff_calorie_WLK_2`. -/
def coeff_calorie_WLK_2 : ℚ := 0.029

/-- `Swimming.coeff_calorie_SWM_1`. -/
def coeff_calorie_SWM_1 : ℚ := 1.1

/-- `Swimming.coeff_calorie_SWM_2`. -/
def coeff_calorie_SWM_2 : ℚ := 2

/-- `Swimming.LEN_STEP`: metres covered by one stroke (overrides the base 0.65). -/
def Swimming_LEN_STEP : ℚ := 1.38

/-- Python `/` with a data-dependent divisor: `ZeroDivisionError` becomes `none`. -/
def qdiv (a b : ℚ) : Option ℚ := if b = 0 then none else some (a / b)

/-- Python `//` on floats: `floor(a / b)` as a float; `ZeroDivisionError` becomes `none`. -/
def qfloordiv (a b : ℚ) : Option ℚ :=
  if b = 0 then none else some ((⌊a / b⌋ : ℤ) : ℚ)

/-- The `InfoMessage` record: class name of the workout plus the four numbers. -/
structure InfoMessage where
  training_type : String
  duration : ℚ
  distance : ℚ
  speed : ℚ
  calories : ℚ

/-- The three concrete activity classes with their constructor fields
(base fields `action`, `duration`, `weight` first, variant extras after). -/
inductive Activity where
  | Running (action duration weight : ℚ)
  | SportsWalking (action duration weight height : ℚ)
  | Swimming (action duration weight length_pool count_pool : ℚ)

/-- `self.action` (shared base field). -/
def Activity.action : Activity → ℚ
  | .Running a _ _ => a
  | .SportsWalking a _ _ _ => a
  | .Swimming a _ _ _ _ => a

/-- `self.duration` (shared base field). -/
def Activity.duration : Activity → ℚ
  | .Running _ d _ => d
  | .SportsWalking _ d _ _ => d
  | .Swimming _ d _ _ _ => d

/-- `self.weight` (shared base field). -/
def Activity.weight : Activity → ℚ
  | .Running _ _ w => w
  | .SportsWalking _ _ w _ => w
  | .Swimming _ _ w _ _ => w

/-- `self.__class__.__name__` for each concrete class. -/
def Activity.className : Activity → String
  | .Running _ _ _ => "Running"
  | .SportsWalking _ _ _ _ => "SportsWalking"
  | .Swimming _ _ _ _ _ => "Swimming"

/-- `get_distance`: `Running` and `SportsWalking` inherit
`Training.get_distance`, which computes `action * LEN_STEP / M_IN_KM`;
`Swimming.get_distance` overrides it with `(action * LEN_STEP) / M_IN_KM`
using the swimming step length 1.38. -/
def Activity.get_distance : Activity → ℚ
  | .Running a _ _ => a * LEN_STEP / M_IN_KM
  | .SportsWalking a _ _ _ => a * LEN_STEP / M_IN_KM
  | .Swimming a _ _ _ _ => (a * Swimming_LEN_STEP) / M_IN_KM

/-- `get_mean_speed`: `Running` and `SportsWalking` inherit the base
default `get_distance() / duration`; `Swimming.get_mean_speed` overrides it
with `length_pool * count_pool / M_IN_KM / duration`. -/
def Activity.get_mean_speed : Activity → Option ℚ
  | .Running a d w => qdiv (Activity.get_distance (.Running a d w)) d
  | .SportsWalking a d w h => qdiv (Activity.get_distance (.SportsWalking a d w h)) d
  | .Swimming _ d _ lp cp => qdiv (lp * cp / M_IN_KM) d

/-- `get_spent_calories` of each concrete class (the base has no formula). -/
def Activity.get_spent_calories : Activity → Option ℚ
  | .Running a d w =>
    match Activity.get_mean_speed (.Running a d w) with
    | none => none
    | some v =>
      some ((coeff_calorie_RUN_1 * v - coeff_calorie_RUN_2) * w
        / M_IN_KM * d * TIME_IN_MIN)
  | .SportsWalking a d w h =>
    match Activity.get_mean_speed (.SportsWalking a d w h) with
    | none => none
    | some v =>
      match qfloordiv (v ^ 2) h with
      | none => none
      | some q =>
        some ((coeff_calorie_WLK_1 * w + q * coeff_calorie_WLK_2 * w) * (d * 60))
  | .Swimming a d w lp cp =>
    match Activity.get_mean_speed (.Swimming a d w lp cp) with
    | none => none
    | some v => some ((v + coeff_calorie_SWM_1) * coeff_calorie_SWM_2 * w)

/-- `show_training_info`: builds an `InfoMessage` from the class name,
`duration`, `get_distance()`, `get_mean_speed()`, `get_spent_calories()`. -/
def Activity.show_training_info (t : Activity) : Option InfoMessage :=
  match t.get_mean_speed with
  | none => none
  | some v =>
    match t.get_spent_calories with
    | none => none
    | some c => some ⟨t.className, t.duration, t.get_distance, v, c⟩

/-- The abstract base class `Training` on its own (before any subclass
overrides anything): just the three shared constructor fields. -/
structure Training where
  action : ℚ
  duration : ℚ
  weight : ℚ

/-- `Training.get_distance`: `action * LEN_STEP / M_IN_KM`. -/
def Training.get_distance (t : Training) : ℚ :=
  t.action * LEN_STEP / M_IN_KM

/-- `Training.get_mean_speed`: `get_distance() / duration`. -/
def Training.get_mean_speed (t : Training) : Option ℚ :=
  qdiv t.get_distance t.duration

/-- `Training.get_spent_calories`: the body is the single statement `pass`,
so the call raises nothing and falls off the end, returning Python `None`
(despite the `-> float` annotation). -/
def Training.get_spent_calories (_ : Training) : Option ℚ := none

/-- Errors of the dispatcher: `KeyError` on an unregistered tag,
`TypeError` on a positional-argument count mismatch when unpacking `*data`. -/
inductive BuildError where
  | unknownActivityType
  | arityMismatch
deriving DecidableEq

/-- `read_package`: looks the tag up in the fixed dict
`{SWM: Swimming, RUN: Running, WLK: SportsWalking}` (a missing key raises
`KeyError`), then calls the selected constructor with `*data` (a length
other than the constructor's positional arity raises `TypeError`). -/
def read_package (workout_type : String) (data : List ℚ) : Except BuildError Activity :=
  if workout_type = "SWM" then
    match data with
    | [a, d, w, lp, cp] => .ok (.Swimming a d w lp cp)
    | _ => .error .arityMismatch
  else if workout_type = "RUN" then
    match data with
    | [a, d, w] => .ok (.Running a d w)
    | _ => .error .arityMismatch
  else if workout_type = "WLK" then
    match data with
    | [a, d, w, h] => .ok (.SportsWalking a d w h)
    | _ => .error .arityMismatch
  else
    .error .unknownActivityType

/-- Whether the dispatcher produced a record. -/
def buildOk (r : Except BuildError Activity) : Bool :=
  match r with
  | .ok _ => true
  | .error _ => false

/-- Round to the nearest integer, ties to even: the rounding that Python's
fixed-point `format` applies to the (exactly represented) value. -/
def roundHalfEven (q : ℚ) : ℤ :=
  let f : ℤ := ⌊q⌋
  if q - f < 1 / 2 then f
  else if q - f > 1 / 2 then f + 1
  else if f % 2 = 0 then f else f + 1

/-- Three decimal digits with leading zeros: the fractional block of `.3f`. -/
def pad3 (n : ℕ) : String :=
  ⟨[Nat.digitChar (n / 100 % 10), Nat.digitChar (n / 10 % 10), Nat.digitChar (n % 10)]⟩

/-- Python's `f'{q:.3f}'`: fixed-point, exactly three digits after the point,
trailing zeros preserved, never scientific notation. -/
def formatFixed3 (q : ℚ) : String :=
  let m : ℤ := roundHalfEven (q * 1000)
  let sign : String := if m < 0 then "-" else ""
  let n : ℕ := m.natAbs
  sign ++ toString (n / 1000) ++ "." ++ pad3 (n % 1000)

/-- `InfoMessage.get_message`: the f-string of the source, with each numeric
field rendered through the `.3f` conversion. -/
def InfoMessage.get_message (m : InfoMessage) : String :=
  "Тип тренировки: " ++ m.training_type ++ ";" ++
    " Длительность: " ++ formatFixed3 m.duration ++ " ч.;" ++
    " Дистанция: " ++ formatFixed3 m.distance ++ " км;" ++
    " Ср. скорость: " ++ formatFixed3 m.speed ++ " км/ч;" ++
    " Потрачено ккал: " ++ formatFixed3 m.calories ++ "."

/-- `get_distance` with the object's state threaded explicitly: the source
body only reads `self`, performing no attribute assignment, so the state
component is returned unchanged. -/
def Activity.get_distance_st (t : Activity) : ℚ × Activity :=
  (t.get_distance, t)

/-- `get_mean_speed` with the object's state threaded explicitly (the body
only reads `self`; the inherited default calls `get_distance` on the state). -/
def Activity.get_mean_speed_st (t : Activity) : Option ℚ × Activity :=
  match t with
  | .Swimming _ d _ lp cp => (qdiv (lp * cp / M_IN_KM) d, t)
  | _ =>
    let (dist, t1) := t.get_distance_st
    (qdiv dist t1.duration, t1)

/-- `get_spent_calories` with the object's state threaded explicitly (the
bodies only read `self` and call `get_mean_speed` on the state). -/
def Activity.get_spent_calories_st (t : Activity) : Option ℚ × Activity :=
  match t with
  | .Running _ d w =>
    let (vo, t1) := t.get_mean_speed_st
    (match vo with
     | none => none
     | some v =>
       some ((coeff_calorie_RUN_1 * v - coeff_calorie_RUN_2) * w
         / M_IN_KM * d * TIME_IN_MIN), t1)
  | .SportsWalking _ d w h =>
    let (vo, t1) := t.get_mean_speed_st
    (match vo with
     | none => none
     | some v =>
       match qfloordiv (v ^ 2) h with
       | none => none
       | some q =>
         some ((coeff_calorie_WLK_1 * w + q * coeff_calorie_WLK_2 * w)
           * (d * 60)), t1)
  | .Swimming _ _ w _ _ =>
    let (vo, t1) := t.get_mean_speed_st
    (match vo with
     | none => none
     | some v => some ((v + coeff_calorie_SWM_1) * coeff_calorie_SWM_2 * w), t1)

/-- `show_training_info` with the object's state threaded explicitly through
the three method calls, in the source's argument-evaluation order. -/
def Activity.show_training_info_st (t : Activity) : Option InfoMessage × Activity :=
  let (dist, t1) := t.get_distance_st
  let (vo, t2) := t1.get_mean_speed_st
  let (co, t3) := t2.get_spent_calories_st
  (match vo, co with
   | some v, some c => some ⟨t3.className, t3.duration, dist, v, c⟩
   | _, _ => none, t3)

/-- The state-threaded `get_distance` leaves the object unchanged. -/
lemma get_distance_st_eq (t : Activity) : t.get_distance_st = (t.get_distance, t) := rfl

/-- The state-threaded `get_mean_speed` leaves the object unchanged. -/
lemma get_mean_speed_st_eq (t : Activity) : t.get_mean_speed_st = (t.get_mean_speed, t) := by
  cases t <;> rfl

/-- The state-threaded `get_spent_calories` leaves the object unchanged. -/
lemma get_spent_calories_st_eq (t : Activity) :
    t.get_spent_calories_st = (t.get_spent_calories, t) := by
  cases t <;> rfl

/-- The state-threaded `show_training_info` computes the plain summary and
leaves the object unchanged. -/
lemma show_training_info_st_eq (t : Activity) :
    t.show_training_info_st = (t.show_training_info, t) := by
  simp only [Activity.show_training_info_st, get_distance_st_eq, get_mean_speed_st_eq,
    get_spent_calories_st_eq, Activity.show_training_info]
  cases t.get_mean_speed <;> cases t.get_spent_calories <;> rfl

/-- C9: the summary computation is a pure deterministic function of the
record's fields: running it leaves every field of the record unchanged, and
running it twice on the unmutated record yields identical results (no
caching, no hidden state). -/
theorem show_training_info_pure (t : Activity) :
    (t.show_training_info_st).2 = t
    ∧ (((t.show_training_info_st).2).show_training_info_st).1 = (t.show_training_info_st).1
    ∧ (t.show_training_info_st).1 = t.show_training_info := by
  rw [show_training_info_st_eq]
  exact ⟨rfl, by rw [show_training_info_st_eq], rfl⟩

/-- C3: for every `Running` record with nonzero duration,
`get_spent_calories` returns exactly
`(18 * meanSpeed - 20) * weight / 1000 * duration * 60`, where `meanSpeed`
is the value returned by `get_mean_speed`. -/
theorem running_calories_spec (a d w : ℚ) (hd : d ≠ 0) :
    ∃ v, Activity.get_mean_speed (.Running a d w) = some v
      ∧ Activity.get_spent_calories (.Running a d w)
        = some ((18 * v - 20) * w / 1000 * d * 60) := by
  refine ⟨Activity.get_distance (.Running a d w) / d, ?_, ?_⟩
  · simp [Activity.get_mean_speed, qdiv, hd]
  · simp [Activity.get_spent_calories, Activity.get_mean_speed, qdiv, hd,
      coeff_calorie_RUN_1, coeff_calorie_RUN_2, M_IN_KM, TIME_IN_MIN]

/-- C1: for every `SportsWalking` record with nonzero height (and nonzero
duration, the documented precondition for the mean speed to be defined),
`get_spent_calories` returns exactly
`(0.035 * weight + floor(meanSpeed^2 / height) * 0.029 * weight) * (duration * 60)`,
with floor division (not ordinary division) of the squared mean speed by
the height. -/
theorem walking_calories_spec (a d w h : ℚ) (hh : h ≠ 0) (hd : d ≠ 0) :
    ∃ v, Activity.get_mean_speed (.SportsWalking a d w h) = some v
      ∧ Activity.get_spent_calories (.SportsWalking a d w h)
        = some ((0.035 * w + ((⌊v ^ 2 / h⌋ : ℤ) : ℚ) * 0.029 * w) * (d * 60)) := by
  refine ⟨Activity.get_distance (.SportsWalking a d w h) / d, ?_, ?_⟩
  · simp [Activity.get_mean_speed, qdiv, hd]
  · simp [Activity.get_spent_calories, Activity.get_mean_speed, qdiv, qfloordiv, hd, hh,
      coeff_calorie_WLK_1, coeff_calorie_WLK_2]

/-- C6: for every `Swimming` record with nonzero duration,
`get_spent_calories` returns exactly `(meanSpeed + 1.1) * 2 * weight`. -/
theorem swimming_calories_spec (a d w lp cp : ℚ) (hd : d ≠ 0) :
    ∃ v, Activity.get_mean_speed (.Swimming a d w lp cp) = some v
      ∧ Activity.get_spent_calories (.Swimming a d w lp cp)
        = some ((v + 1.1) * 2 * w) := by
  refine ⟨lp * cp / M_IN_KM / d, ?_, ?_⟩
  · simp [Activity.get_mean_speed, qdiv, hd]
  · simp [Activity.get_spent_calories, Activity.get_mean_speed, qdiv, hd,
      coeff_calorie_SWM_1, coeff_calorie_SWM_2]

/-- C4: for every `Swimming` record with nonzero duration, `get_mean_speed`
returns exactly `length_pool * count_pool / 1000 / duration`, independent of
`action` (hence of the step-formula distance); for `Running` and
`SportsWalking` it returns `get_distance() / duration`. -/
theorem mean_speed_spec (a a' d w h lp cp : ℚ) (hd : d ≠ 0) :
    Activity.get_mean_speed (.Swimming a d w lp cp) = some (lp * cp / 1000 / d)
    ∧ Activity.get_mean_speed (.Swimming a d w lp cp)
        = Activity.get_mean_speed (.Swimming a' d w lp cp)
    ∧ Activity.get_mean_speed (.Running a d w)
        = some (Activity.get_distance (.Running a d w) / d)
    ∧ Activity.get_mean_speed (.SportsWalking a d w h)
        = some (Activity.get_distance (.SportsWalking a d w h) / d) := by
  refine ⟨?_, ?_, ?_, ?_⟩ <;> simp [Activity.get_mean_speed, qdiv, hd, M_IN_KM]

/-- C5: for every record, `get_distance` returns
`action * stepLength / 1000` with step length 0.65 for `Running` and
`SportsWalking` and 1.38 for `Swimming`; in particular 9.75 km for the
Running sample and 0.9936 km for the Swimming sample. -/
theorem distance_spec (a d w h lp cp : ℚ) :
    Activity.get_distance (.Running a d w) = a * 0.65 / 1000
    ∧ Activity.get_distance (.SportsWalking a d w h) = a * 0.65 / 1000
    ∧ Activity.get_distance (.Swimming a d w lp cp) = a * 1.38 / 1000
    ∧ Activity.get_distance (.Running 15000 1 75) = 9.75
    ∧ Activity.get_distance (.Swimming 720 1 80 25 40) = 0.9936 := by
  refine ⟨?_, ?_, ?_, ?_, ?_⟩ <;>
    norm_num [Activity.get_distance, LEN_STEP, Swimming_LEN_STEP, M_IN_KM]

/-- C2: `Training.get_spent_calories` on the abstract base does not raise an
unimplemented-operation fault: its body is `pass`, so every call silently
returns Python `None` (embedded as `none`), contradicting both the
`-> float` annotation and the documented fatal fault. -/
theorem base_calories_returns_none (t : Training) :
    Training.get_spent_calories t = none := rfl

/-- Witness for C3 at the sample record `(15000, 1, 75)`: mean speed
9.75 km/h and calories 699.75. -/
theorem running_calories_witness :
    Activity.get_mean_speed (.Running 15000 1 75) = some 9.75
    ∧ Activity.get_spent_calories (.Running 15000 1 75) = some 699.75 := by
  obtain ⟨v, hv, hc⟩ := running_calories_spec 15000 1 75 (by norm_num)
  have hv' : Activity.get_mean_speed (.Running 15000 1 75) = some (9.75 : ℚ) := by
    simp [Activity.get_mean_speed, Activity.get_distance, qdiv, LEN_STEP, M_IN_KM]
    norm_num
  have hveq : v = 9.75 := Option.some.inj (hv.symm.trans hv')
  subst hveq
  refine ⟨hv', ?_⟩
  rw [hc]
  norm_num

/-- Witness for C1 at the sample record `(9000, 1, 75, 180)`: mean speed
5.85 km/h, the floor term vanishes, and calories are 157.5. -/
theorem walking_calories_witness :
    Activity.get_mean_speed (.SportsWalking 9000 1 75 180) = some 5.85
    ∧ Activity.get_spent_calories (.SportsWalking 9000 1 75 180) = some 157.5 := by
  obtain ⟨v, hv, hc⟩ := walking_calories_spec 9000 1 75 180 (by norm_num) (by norm_num)
  have hv' : Activity.get_mean_speed (.SportsWalking 9000 1 75 180) = some (5.85 : ℚ) := by
    simp [Activity.get_mean_speed, Activity.get_distance, qdiv, LEN_STEP, M_IN_KM]
    norm_num
  have hveq : v = 5.85 := Option.some.inj (hv.symm.trans hv')
  subst hveq
  refine ⟨hv', ?_⟩
  rw [hc]
  have hfl : (⌊(5.85 : ℚ) ^ 2 / 180⌋ : ℤ) = 0 := by
    rw [Int.floor_eq_zero_iff]
    constructor <;> norm_num
  rw [hfl]
  norm_num

/-- Witness for C6 at the sample record `(720, 1, 80, 25, 40)`: mean speed
1.0 km/h and calories 336.0. -/
theorem swimming_calories_witness :
    Activity.get_mean_speed (.Swimming 720 1 80 25 40) = some 1
    ∧ Activity.get_spent_calories (.Swimming 720 1 80 25 40) = some 336 := by
  obtain ⟨v, hv, hc⟩ := swimming_calories_spec 720 1 80 25 40 (by norm_num)
  have hv' : Activity.get_mean_speed (.Swimming 720 1 80 25 40) = some (1 : ℚ) := by
    simp [Activity.get_mean_speed, qdiv, M_IN_KM]
    norm_num
  have hveq : v = 1 := Option.some.inj (hv.symm.trans hv')
  subst hveq
  refine ⟨hv', ?_⟩
  rw [hc]
  norm_num

/-- Witness for C4 at the Swimming and Running samples. -/
theorem mean_speed_witness :
    Activity.get_mean_speed (.Swimming 720 1 80 25 40) = some 1
    ∧ Activity.get_mean_speed (.Running 15000 1 75) = some 9.75 := by
  constructor
  · have h := (mean_speed_spec 720 0 1 80 0 25 40 (by norm_num)).1
    rw [h]
    norm_num
  · have h := (mean_speed_spec 15000 0 1 75 0 25 40 (by norm_num)).2.2.1
    rw [h]
    norm_num [Activity.get_distance, LEN_STEP, M_IN_KM]

/-- `SWM` construction succeeds exactly on 5 data values. -/
lemma swm_ok_iff (data : List ℚ) :
    buildOk (read_package "SWM" data) = true ↔ data.length = 5 := by
  rcases data with _ | ⟨a, _ | ⟨b, _ | ⟨c, _ | ⟨d, _ | ⟨e, _ | ⟨f, rest⟩⟩⟩⟩⟩⟩ <;>
    simp [read_package, buildOk]

/-- `RUN` construction succeeds exactly on 3 data values. -/
lemma run_ok_iff (data : List ℚ) :
    buildOk (read_package "RUN" data) = true ↔ data.length = 3 := by
  rcases data with _ | ⟨a, _ | ⟨b, _ | ⟨c, _ | ⟨d, rest⟩⟩⟩⟩ <;>
    simp [read_package, buildOk]

/-- `WLK` construction succeeds exactly on 4 data values. -/
lemma wlk_ok_iff (data : List ℚ) :
    buildOk (read_package "WLK" data) = true ↔ data.length = 4 := by
  rcases data with _ | ⟨a, _ | ⟨b, _ | ⟨c, _ | ⟨d, _ | ⟨e, rest⟩⟩⟩⟩⟩ <;>
    simp [read_package, buildOk]

/-- `SWM` with any other data length is an arity mismatch. -/
lemma swm_err (data : List ℚ) (hlen : data.length ≠ 5) :
    read_package "SWM" data = .error .arityMismatch := by
  rcases data with _ | ⟨a, _ | ⟨b, _ | ⟨c, _ | ⟨d, _ | ⟨e, _ | ⟨f, rest⟩⟩⟩⟩⟩⟩ <;>
    simp_all [read_package]

/-- `RUN` with any other data length is an arity mismatch. -/
lemma run_err (data : List ℚ) (hlen : data.length ≠ 3) :
    read_package "RUN" data = .error .arityMismatch := by
  rcases data with _ | ⟨a, _ | ⟨b, _ | ⟨c, _ | ⟨d, rest⟩⟩⟩⟩ <;>
    simp_all [read_package]

/-- `WLK` with any other data length is an arity mismatch. -/
lemma wlk_err (data : List ℚ) (hlen : data.length ≠ 4) :
    read_package "WLK" data = .error .arityMismatch := by
  rcases data with _ | ⟨a, _ | ⟨b, _ | ⟨c, _ | ⟨d, _ | ⟨e, rest⟩⟩⟩⟩⟩ <;>
    simp_all [read_package]

/-- C7: `read_package` succeeds iff the tag is one of `SWM`/`RUN`/`WLK` and
the data length equals that variant's constructor arity (5/3/4); an
unregistered tag fails with the unknown-activity-type error (never falling
through to a variant), and a registered tag with a data sequence one element
short or one element long fails with the arity-mismatch error. -/
theorem read_package_spec (tag : String) (data : List ℚ) :
    (buildOk (read_package tag data) = true ↔
      (tag = "SWM" ∧ data.length = 5) ∨ (tag = "RUN" ∧ data.length = 3)
        ∨ (tag = "WLK" ∧ data.length = 4))
    ∧ (tag ≠ "SWM" → tag ≠ "RUN" → tag ≠ "WLK" →
        read_package tag data = .error .unknownActivityType)
    ∧ (tag = "SWM" → data.length = 4 ∨ data.length = 6 →
        read_package tag data = .error .arityMismatch)
    ∧ (tag = "RUN" → data.length = 2 ∨ data.length = 4 →
        read_package tag data = .error .arityMismatch)
    ∧ (tag = "WLK" → data.length = 3 ∨ data.length = 5 →
        read_package tag data = .error .arityMismatch) := by
  refine ⟨?_, ?_, ?_, ?_, ?_⟩
  · by_cases h1 : tag = "SWM"
    · subst h1
      simp [swm_ok_iff]
    · by_cases h2 : tag = "RUN"
      · subst h2
        simp [run_ok_iff]
      · by_cases h3 : tag = "WLK"
        · subst h3
          simp [wlk_ok_iff]
        · simp [read_package, h1, h2, h3, buildOk]
  · intro h1 h2 h3
    simp [read_package, h1, h2, h3]
  · intro h1 hlen
    subst h1
    exact swm_err data (by omega)
  · intro h1 hlen
    subst h1
    exact run_err data (by omega)
  · intro h1 hlen
    subst h1
    exact wlk_err data (by omega)

/-- Witness for C7: the tag `CYC` is rejected as unknown, `RUN` with 2 or 4
values is an arity mismatch, and `RUN` with 3 values succeeds. -/
theorem read_package_witness :
    read_package "CYC" [1, 2, 3] = .error .unknownActivityType
    ∧ read_package "RUN" [15000, 1] = .error .arityMismatch
    ∧ read_package "RUN" [15000, 1, 75, 4] = .error .arityMismatch
    ∧ buildOk (read_package "RUN" [15000, 1, 75]) = true := by
  refine ⟨?_, ?_, ?_, ?_⟩
  · exact (read_package_spec "CYC" [1, 2, 3]).2.1 (by decide) (by decide) (by decide)
  · exact (read_package_spec "RUN" [15000, 1]).2.2.2.1 rfl (by simp)
  · exact (read_package_spec "RUN" [15000, 1, 75, 4]).2.2.2.1 rfl (by simp)
  · exact ((read_package_spec "RUN" [15000, 1, 75]).1).2 (by simp)

/-- The summary's name field is the class name of the record it came from. -/
lemma info_name (t : Activity) (m : InfoMessage) (hm : t.show_training_info = some m) :
    m.training_type = t.className := by
  unfold Activity.show_training_info at hm
  cases hv : t.get_mean_speed with
  | none => rw [hv] at hm; simp at hm
  | some v =>
    rw [hv] at hm
    cases hc : t.get_spent_calories with
    | none => rw [hc] at hm; simp at hm
    | some c =>
      rw [hc] at hm
      simp only [Option.some.injEq] at hm
      rw [← hm]

/-- C10: every record built by the dispatcher reports the concrete class
name in its summary: `Swimming` for tag `SWM`, `Running` for tag `RUN`, and
`SportsWalking` (not `Walking`, not the tag) for tag `WLK`. -/
theorem dispatch_class_name (tag : String) (data : List ℚ) (act : Activity)
    (hok : read_package tag data = .ok act) :
    (tag = "SWM" → act.className = "Swimming")
    ∧ (tag = "RUN" → act.className = "Running")
    ∧ (tag = "WLK" → act.className = "SportsWalking")
    ∧ (∀ m : InfoMessage, act.show_training_info = some m →
        m.training_type = act.className) := by
  refine ⟨?_, ?_, ?_, fun m hm => info_name act m hm⟩
  · intro h1
    subst h1
    rcases data with _ | ⟨a, _ | ⟨b, _ | ⟨c, _ | ⟨d, _ | ⟨e, _ | ⟨f, rest⟩⟩⟩⟩⟩⟩ <;>
      simp [read_package] at hok
    rw [← hok]
    rfl
  · intro h1
    subst h1
    rcases data with _ | ⟨a, _ | ⟨b, _ | ⟨c, _ | ⟨d, rest⟩⟩⟩⟩ <;>
      simp [read_package] at hok
    rw [← hok]
    rfl
  · intro h1
    subst h1
    rcases data with _ | ⟨a, _ | ⟨b, _ | ⟨c, _ | ⟨d, _ | ⟨e, rest⟩⟩⟩⟩⟩ <;>
      simp [read_package] at hok
    rw [← hok]
    rfl

/-- Witness for C10 at tag `WLK` with the sample data. -/
theorem dispatch_class_name_witness :
    read_package "WLK" [9000, 1, 75, 180] = .ok (.SportsWalking 9000 1 75 180)
    ∧ (Activity.SportsWalking 9000 1 75 180).className = "SportsWalking" := by
  refine ⟨rfl, ?_⟩
  exact (dispatch_class_name "WLK" [9000, 1, 75, 180] _ rfl).2.2.1 rfl

/-- A single decimal digit renders as a digit character. -/
lemma digitChar_isDigit (m : ℕ) (hm : m < 10) : (Nat.digitChar m).isDigit = true := by
  interval_cases m <;> decide

/-- The fractional block has exactly three characters, all digits. -/
lemma pad3_spec (k : ℕ) :
    (pad3 k).length = 3 ∧ (pad3 k).data.all Char.isDigit = true := by
  have h1 := digitChar_isDigit (k / 100 % 10) (Nat.mod_lt _ (by norm_num))
  have h2 := digitChar_isDigit (k / 10 % 10) (Nat.mod_lt _ (by norm_num))
  have h3 := digitChar_isDigit (k % 10) (Nat.mod_lt _ (by norm_num))
  exact ⟨rfl, by simp [pad3, h1, h2, h3]⟩

/-- C8: every numeric value is rendered in fixed-point notation with
exactly three decimal digits after the point, trailing zeros preserved
(`336` renders as `336.000`), and `get_message` renders each of the four
numeric fields (duration, distance, mean speed, calories) through that
conversion. -/
theorem message_three_decimals :
    (∀ q : ℚ, ∃ s t : String,
        formatFixed3 q = s ++ "." ++ t
          ∧ t.length = 3 ∧ t.data.all Char.isDigit = true)
    ∧ formatFixed3 336 = "336.000"
    ∧ (∀ m : InfoMessage, m.get_message =
        "Тип тренировки: " ++ m.training_type ++ ";" ++
          " Длительность: " ++ formatFixed3 m.duration ++ " ч.;" ++
          " Дистанция: " ++ formatFixed3 m.distance ++ " км;" ++
          " Ср. скорость: " ++ formatFixed3 m.speed ++ " км/ч;" ++
          " Потрачено ккал: " ++ formatFixed3 m.calories ++ ".") := by
  refine ⟨?_, ?_, fun m => rfl⟩
  · intro q
    refine ⟨(if roundHalfEven (q * 1000) < 0 then "-" else "")
        ++ toString ((roundHalfEven (q * 1000)).natAbs / 1000),
      pad3 ((roundHalfEven (q * 1000)).natAbs % 1000), rfl, pad3_spec _⟩
  · have h : roundHalfEven ((336 : ℚ) * 1000) = 336000 := by
      have h2 : ((336 : ℚ) * 1000) = ((336000 : ℤ) : ℚ) := by norm_num
      unfold roundHalfEven
      rw [h2, Int.floor_intCast]
      norm_num
    unfold formatFixed3
    rw [h]
    rfl
